import Mathlib

/-!
Verification of the OCPP 1.6 charge-point simulator (`ChargePoint` class of the
repository's single engine source file, plus its static-file server).

The engine is shallowly embedded: JSON values become the inductive `JValue`;
`sessionStorage` / `localStorage` become association lists of string pairs held
in an explicit `CPState` record; each method of the `ChargePoint` class becomes
a function `... → CPState → CPState × List Event`, where the returned event
list is the ordered trace of the observable actions the method performs
(frames handed to the WebSocket, callback invocations, status-key writes,
interval cancellations, and awaited delays).  Timers (`setInterval` /
`clearInterval`) are modelled as a list of `(id, periodMs)` pairs plus a
fresh-id counter.
-/

/-- A JSON value, as produced by `JSON.parse`.  JavaScript's `undefined`
(e.g. reading an absent object property) is conflated with `null`; none of the
embedded code paths distinguish the two. -/
inductive JValue where
  | null : JValue
  | bool (b : Bool) : JValue
  | num (n : Int) : JValue
  | str (s : String) : JValue
  | arr (xs : List JValue) : JValue
  | obj (fields : List (String × JValue)) : JValue

namespace JValue

/-- JavaScript property access `v.k` on a parsed JSON value: the field of an
object, `null`-as-undefined otherwise. -/
def getField : JValue → String → JValue
  | obj fields, k =>
      match fields.find? (fun p => p.1 == k) with
      | some p => p.2
      | none => null
  | _, _ => null

/-- JavaScript falsiness of a JSON value (`!v`): `null`/`undefined`, `false`,
the number `0` and the empty string are falsy; arrays and objects are truthy. -/
def falsy : JValue → Bool
  | null => true
  | bool b => !b
  | num n => n == 0
  | str s => s == ""
  | arr _ => false
  | obj _ => false

/-- JavaScript loose equality `v == 'lit'` of a JSON value against a string
literal: true exactly when the value is that string.  (Loose equality's
number/string coercions are not exercised: the compared fields are OCPP status
strings.) -/
def eqStr : JValue → String → Bool
  | str s, t => s == t
  | _, _ => false

/-- JavaScript string coercion `String(v)` as applied by `Storage.setItem`.
Only the primitive cases are exercised by the embedded handlers (the values
stored are numbers or strings); composite values are not modelled precisely. -/
def toJSString : JValue → String
  | null => "null"
  | bool b => if b then "true" else "false"
  | num n => toString n
  | str s => s
  | arr _ => ""
  | obj _ => ""

end JValue

/-- `Storage.setItem`: later writes shadow earlier ones (the store is read by
first match, so we prepend). -/
def storeSet (st : List (String × String)) (k v : String) : List (String × String) :=
  (k, v) :: st

/-- `getSessionKey` / `getKey` of the source: read the item and fall back to
the default when the item is absent (`null`) or the empty string — the source
tests plain JavaScript falsiness (`if (!v) v = default_value`). -/
def storeGet (st : List (String × String)) (k d : String) : String :=
  match st.find? (fun p => p.1 == k) with
  | some p => if p.2 == "" then d else p.2
  | none => d

/-- Modelled from the spec: the constants module `ocpp_constants.js` (imported
as `ocpp`) is not under `src/`.  Its values follow the spec's data model (§3),
its glossary, and the OCPP 1.6 action/status names the spec fixes as
wire-exact (§6); storage key names are chosen arbitrarily (their exact text is
never observable, only their mutual distinctness and distinctness from the
string literals `"LastAction"` and `"TransactionId"` used inline in the
source). -/
def BOOT_NOTIFICATION : String := "BootNotification"

def AUTHORIZE : String := "Authorize"

def START_TRANSACTION : String := "StartTransaction"

def STOP_TRANSACTION : String := "StopTransaction"

def HEARTBEAT : String := "Heartbeat"

def METERVALUES : String := "MeterValues"

def STATUSNOTIFICATION : String := "StatusNotification"

def CP_DISCONNECTED : String := "Disconnected"

def CP_CONNECTING : String := "Connecting"

def CP_CONNECTED : String := "Connected"

def CP_AUTHORIZED : String := "Authorized"

def CP_INTRANSACTION : String := "InTransaction"

def CP_ERROR : String := "Error"

def CONN_AVAILABLE : String := "Available"

def CONN_CHARGING : String := "Charging"

def CONN_FINISHING : String := "Finishing"

def CONN_UNAVAILABLE : String := "Unavailable"

def AVAILABITY_OPERATIVE : String := "Operative"

def AVAILABITY_INOPERATIVE : String := "Inoperative"

def KEY_CP_STATUS : String := "CPStatus"

def KEY_METER_VALUE : String := "MeterValue"

def KEY_CONN_STATUS : String := "ConnectorStatus"

def KEY_CONN_AVAILABILITY : String := "ConnectorAvailability"

/-- The mutable state of one `ChargePoint` instance together with its browser
environment: the two storages, the WebSocket's openness, the heartbeat
interval slot `_heartbeat`, the set of live intervals, the three registered
callbacks (only their presence matters to the embedding: their invocations are
recorded in the trace), the clock reading used for `luxon.DateTime.utc()`, and
a counter modelling the external random message-id generator (§6 collaborator)
as a deterministic fresh supply. -/
structure CPState where
  session : List (String × String)
  localStore : List (String × String)
  websocketOpen : Bool
  heartbeat : Option Nat
  timers : List (Nat × Nat)
  nextTimerId : Nat
  statusCb : Bool
  availCb : Bool
  logCb : Bool
  now : String
  nextMsgId : Nat
deriving Repr, DecidableEq

/-- One observable action of the engine, in program order. -/
inductive Event where
  | sent (frame : List JValue) : Event
  | statusCbCall (st msg : String) : Event
  | availabilityCbCall (c : Nat) (av : String) : Event
  | logCbCall (msg : String) : Event
  | cpStatusWrite (st : String) : Event
  | connStatusWrite (c : Nat) (st : String) : Event
  | cleared (timerId : Nat) : Event
  | wait (ms : Nat) : Event

namespace ChargePoint

/-- `generateId()`: the external identifier generator, modelled as a
deterministic fresh supply (its randomness is a §6 collaborator; no embedded
property depends on the tokens' content). -/
def generateId (s : CPState) : String × CPState :=
  ("msg" ++ toString s.nextMsgId, { s with nextMsgId := s.nextMsgId + 1 })

/-- `logMsg(msg)`: invoke the logging callback, if registered, with the
`[OCPP] ` prefix. -/
def logMsg (msg : String) (s : CPState) : CPState × List Event :=
  if s.logCb then (s, [Event.logCbCall ("[OCPP] " ++ msg)]) else (s, [])

/-- `setStatus(s, msg)`: persist the charge-point status in session storage
and notify the status-change callback, if registered. -/
def setStatus (st : String) (msg : String) (s : CPState) : CPState × List Event :=
  let s1 := { s with session := storeSet s.session KEY_CP_STATUS st }
  if s.statusCb then
    (s1, [Event.cpStatusWrite st, Event.statusCbCall st msg])
  else
    (s1, [Event.cpStatusWrite st])

/-- `status()`: read the persisted charge-point status. -/
def status (s : CPState) : String :=
  storeGet s.session KEY_CP_STATUS ""

/-- `setLastAction(action)` (the single-slot action correlator). -/
def setLastAction (action : String) (s : CPState) : CPState :=
  { s with session := storeSet s.session "LastAction" action }

/-- `getLastAction()`. -/
def getLastAction (s : CPState) : String :=
  storeGet s.session "LastAction" ""

/-- `wsSendData(data)`: hand the frame to the socket when one is open,
otherwise report a `No connection` error status.  (The `console.log` line has
no observable effect on the engine and is not traced.) -/
def wsSendData (frame : List JValue) (s : CPState) : CPState × List Event :=
  if s.websocketOpen then
    (s, [Event.sent frame])
  else
    setStatus CP_ERROR "No connection to OCPP server" s

/-- `meterValue()`: `parseInt` of the stored meter value, default `"0"`.  The
stored text is always the decimal rendering of an integer in the embedded
paths, so `parseInt` is modelled as exact integer parsing with fallback 0. -/
def meterValue (s : CPState) : Int :=
  ((storeGet s.session KEY_METER_VALUE "0").toInt?).getD 0

/-- `connectorStatus(c)`: read the per-connector status from session
storage. -/
def connectorStatus (c : Nat) (s : CPState) : String :=
  storeGet s.session (KEY_CONN_STATUS ++ toString c) ""

/-- `availability(c)`: read the per-connector availability from durable
storage, default `Operative`. -/
def availability (c : Nat) (s : CPState) : String :=
  storeGet s.localStore (KEY_CONN_AVAILABILITY ++ toString c) AVAILABITY_OPERATIVE

/-- `sendStatusNotification(c)`: read the connector's stored status, record
`StatusNotification` as the last action, build the `[2, id, action, payload]`
frame with fixed errorCode `NoError` and the current timestamp, log, and
send. -/
def sendStatusNotification (c : Nat) (s : CPState) : CPState × List Event :=
  let st := connectorStatus c s
  let s1 := setLastAction STATUSNOTIFICATION s
  let p := generateId s1
  let frame : List JValue :=
    [JValue.num 2, JValue.str p.1, JValue.str STATUSNOTIFICATION,
      JValue.obj [("connectorId", JValue.num c), ("errorCode", JValue.str "NoError"),
        ("status", JValue.str st), ("timestamp", JValue.str p.2.now)]]
  let q := logMsg ("Sending StatusNotification for connector " ++ toString c ++ ": " ++ st) p.2
  let r := wsSendData frame q.1
  (r.1, q.2 ++ r.2)

/-- `setConnectorStatus(c, newStatus, updateServer)`: write the per-connector
status key and, when requested, emit a `StatusNotification`. -/
def setConnectorStatus (c : Nat) (newStatus : String) (updateServer : Bool)
    (s : CPState) : CPState × List Event :=
  let s1 := { s with session := storeSet s.session (KEY_CONN_STATUS ++ toString c) newStatus }
  if updateServer then
    let q := sendStatusNotification c s1
    (q.1, Event.connStatusWrite c newStatus :: q.2)
  else
    (s1, [Event.connStatusWrite c newStatus])

/-- `availability(c)` is read from durable storage; `setConnectorAvailability`
writes it, cascades `Inoperative` into connector status `Unavailable` (note:
the second branch of the source repeats the `Inoperative` test, so its
`Available` restoration arm is its dead code, reproduced faithfully here),
notifies the availability-change callback, and for connector 0 recursively
applies the same availability to connectors 1 and 2. -/
def setConnectorAvailability (c : Nat) (newAvailability : String) (s : CPState) :
    CPState × List Event :=
  let s0 := { s with
    localStore := storeSet s.localStore (KEY_CONN_AVAILABILITY ++ toString c) newAvailability }
  let p1 :=
    if newAvailability == AVAILABITY_INOPERATIVE then
      setConnectorStatus c CONN_UNAVAILABLE true s0
    else if newAvailability == AVAILABITY_INOPERATIVE then
      setConnectorStatus c CONN_AVAILABLE true s0
    else (s0, [])
  let p2 :=
    if p1.1.availCb then (p1.1, [Event.availabilityCbCall c newAvailability]) else (p1.1, [])
  if h : c == 0 then
    let p3 := setConnectorAvailability 1 newAvailability p2.1
    let p4 := setConnectorAvailability 2 newAvailability p3.1
    (p4.1, p1.2 ++ p2.2 ++ p3.2 ++ p4.2)
  else
    (p2.1, p1.2 ++ p2.2)
termination_by (if c == 0 then 1 else 0)
decreasing_by
  all_goals simp_all

/-- `setHeartbeat(period)`: log, clear any previous interval, and install a
fresh interval of `period * 1000` milliseconds, remembering its id in
`_heartbeat`. -/
def setHeartbeat (period : Nat) (s : CPState) : CPState × List Event :=
  let p1 := logMsg ("Setting heartbeat period to " ++ toString period ++ "s") s
  let p2 :=
    match p1.1.heartbeat with
    | some hb =>
        ({ p1.1 with timers := p1.1.timers.filter (fun t => t.1 != hb) }, [Event.cleared hb])
    | none => (p1.1, [])
  let s2 := { p2.1 with
    timers := p2.1.timers ++ [(p2.1.nextTimerId, period * 1000)],
    heartbeat := some p2.1.nextTimerId,
    nextTimerId := p2.1.nextTimerId + 1 }
  (s2, p1.2 ++ p2.2)

/-- `sendHeartbeat()`: record the last action, build the empty-payload
Heartbeat CALL, log and send. -/
def sendHeartbeat (s : CPState) : CPState × List Event :=
  let s1 := setLastAction HEARTBEAT s
  let p := generateId s1
  let frame : List JValue :=
    [JValue.num 2, JValue.str p.1, JValue.str HEARTBEAT, JValue.obj []]
  let q := logMsg "Heartbeat" p.2
  let r := wsSendData frame q.1
  (r.1, q.2 ++ r.2)

/-- `authorize(tagId)`: record the last action, log, and send the Authorize
CALL carrying the tag. -/
def authorize (tagId : String) (s : CPState) : CPState × List Event :=
  let s1 := setLastAction AUTHORIZE s
  let p1 := logMsg ("Requesting authorization for tag " ++ tagId) s1
  let p := generateId p1.1
  let frame : List JValue :=
    [JValue.num 2, JValue.str p.1, JValue.str AUTHORIZE,
      JValue.obj [("idTag", JValue.str tagId)]]
  let r := wsSendData frame p.2
  (r.1, p1.2 ++ r.2)

/-- `wsDisconnect()`: close the socket (close-code 3001) and record the
Disconnected status.  Only the synchronous effect is modelled; the
asynchronous `onclose` callback the close eventually triggers is outside the
embedded fragment. -/
def wsDisconnect (s : CPState) : CPState × List Event :=
  setStatus CP_DISCONNECTED "" { s with websocketOpen := false }

/-- `startTransaction(tagId, connectorId, reservationId)`: optimistic
InTransaction status, StartTransaction CALL (with `reservationId` only when
non-zero), connector marked Charging with notification, last action
recorded. -/
def startTransaction (tagId : String) (connectorId : Nat) (reservationId : Int)
    (s : CPState) : CPState × List Event :=
  let p1 := setStatus CP_INTRANSACTION "" s
  let mv := meterValue p1.1
  let p := generateId p1.1
  let base : List (String × JValue) :=
    [("connectorId", JValue.num connectorId), ("idTag", JValue.str tagId),
      ("meterStart", JValue.num mv), ("timestamp", JValue.str p.2.now)]
  let fields := if reservationId != 0 then base ++ [("reservationId", JValue.num reservationId)] else base
  let p2 := logMsg ("Starting Transaction for tag " ++ tagId ++ " (connector:" ++
      toString connectorId ++ ", meter value=" ++ toString mv ++ ")") p.2
  let p3 := wsSendData [JValue.num 2, JValue.str p.1, JValue.str START_TRANSACTION,
      JValue.obj fields] p2.1
  let p4 := setConnectorStatus connectorId CONN_CHARGING true p3.1
  let s5 := setLastAction START_TRANSACTION p4.1
  (s5, p1.2 ++ p2.2 ++ p3.2 ++ p4.2)

/-- `stopTransactionWithId(transactionId, tagId)`: record the last action, go
to Authorized, send the StopTransaction CALL (with `idTag` only when the tag
is non-empty), then — after a 1-second simulated delay each — set connector 1
to Finishing and then to Available, both with server notification.  The two
`await`ed delays appear in the trace as `Event.wait 1000`. -/
def stopTransactionWithId (transactionId : Int) (tagId : String) (s : CPState) :
    CPState × List Event :=
  let s1 := setLastAction STOP_TRANSACTION s
  let p1 := setStatus CP_AUTHORIZED "" s1
  let mv := meterValue p1.1
  let p2 := logMsg ("Stopping Transaction with id " ++ toString transactionId ++
      " (meterValue=" ++ toString mv ++ ")") p1.1
  let p := generateId p2.1
  let base : List (String × JValue) :=
    [("transactionId", JValue.num transactionId), ("timestamp", JValue.str p.2.now),
      ("meterStop", JValue.num mv)]
  let fields := if tagId == "" then base else base ++ [("idTag", JValue.str tagId)]
  let p3 := wsSendData [JValue.num 2, JValue.str p.1, JValue.str STOP_TRANSACTION,
      JValue.obj fields] p.2
  let p4 := setConnectorStatus 1 CONN_FINISHING true p3.1
  let p5 := setConnectorStatus 1 CONN_AVAILABLE true p4.1
  (p5.1, p1.2 ++ p2.2 ++ p3.2 ++ [Event.wait 1000] ++ p4.2 ++ [Event.wait 1000] ++ p5.2)

/-- Integer extraction of a JSON number (`payload.interval` as consumed by
`setHeartbeat`); non-numeric values are coarsened to 0 — no embedded claim
exercises them. -/
def jvalueAsNat : JValue → Nat
  | JValue.num n => n.toNat
  | _ => 0

/-- `handleCallResult(payload)`: dispatch on the remembered last action. -/
def handleCallResult (payload : JValue) (s : CPState) : CPState × List Event :=
  let la := getLastAction s
  if la == BOOT_NOTIFICATION then
    if (payload.getField "status").eqStr "Accepted" then
      let p1 := logMsg "Connection accepted" s
      let p2 := setHeartbeat (jvalueAsNat (payload.getField "interval")) p1.1
      let p3 := setStatus CP_CONNECTED "" p2.1
      (p3.1, p1.2 ++ p2.2 ++ p3.2)
    else
      let p1 := logMsg "Connection refused by server" s
      let p2 := wsDisconnect p1.1
      (p2.1, p1.2 ++ p2.2)
  else if la == AUTHORIZE then
    if ((payload.getField "idTagInfo").getField "status").eqStr "Invalid" then
      logMsg "Authorization failed" s
    else
      let p1 := logMsg "Authorization OK" s
      let p2 := setStatus CP_AUTHORIZED "" p1.1
      (p2.1, p1.2 ++ p2.2)
  else if la == START_TRANSACTION then
    let transactionId := payload.getField "transactionId"
    if transactionId.falsy then
      (s, [])
    else
      let s1 := { s with session := storeSet s.session "TransactionId" transactionId.toJSString }
      let p1 := setStatus CP_INTRANSACTION ("TransactionId: " ++ transactionId.toJSString) s1
      let p2 := logMsg ("Transaction id is " ++ transactionId.toJSString) p1.1
      (p2.1, p1.2 ++ p2.2)
  else if la == STOP_TRANSACTION then
    setConnectorStatus 1 CONN_AVAILABLE false s
  else if la == HEARTBEAT then
    (s, [])
  else if la == METERVALUES then
    (s, [])
  else if la == STATUSNOTIFICATION then
    (s, [])
  else
    logMsg ("NOT IMPLEMENTED in handleCallResult in ocpp_chargepont.js LastAction: " ++ la) s

/-- `handleCallError(errCode, errMsg)`. -/
def handleCallError (errCode errMsg : String) (s : CPState) : CPState × List Event :=
  setStatus CP_ERROR ("ErrorCode: " ++ errCode ++ " (" ++ errMsg ++ ")") s

end ChargePoint

section TraceViews

/-- The ordered list of charge-point status writes in a trace. -/
def cpWrites (tr : List Event) : List String :=
  tr.filterMap fun e =>
    match e with
    | Event.cpStatusWrite st => some st
    | _ => none

/-- The ordered list of connector status writes in a trace. -/
def connWrites (tr : List Event) : List (Nat × String) :=
  tr.filterMap fun e =>
    match e with
    | Event.connStatusWrite c st => some (c, st)
    | _ => none

/-- The ordered list of availability-change callback invocations in a
trace. -/
def availCbCalls (tr : List Event) : List (Nat × String) :=
  tr.filterMap fun e =>
    match e with
    | Event.availabilityCbCall c av => some (c, av)
    | _ => none

/-- The ordered list of frames handed to the socket in a trace. -/
def sentFrames (tr : List Event) : List (List JValue) :=
  tr.filterMap fun e =>
    match e with
    | Event.sent f => some f
    | _ => none

/-- The action name of a well-formed 4-element CALL frame. -/
def frameAction : List JValue → Option String
  | [JValue.num 2, _, JValue.str a, _] => some a
  | _ => none

/-- The payload (fourth element) of a 4-element frame. -/
def framePayload : List JValue → JValue
  | [_, _, _, p] => p
  | _ => JValue.null

/-- The `status` fields of the StatusNotification CALLs sent in a trace, in
order. -/
def statusNotifStatuses (tr : List Event) : List JValue :=
  tr.filterMap fun e =>
    match e with
    | Event.sent f =>
        if frameAction f == some STATUSNOTIFICATION then some ((framePayload f).getField "status")
        else none
    | _ => none

/-- Whether an event is one of the `await`ed delays. -/
def Event.isWait : Event → Bool
  | Event.wait _ => true
  | _ => false

end TraceViews

/-- A freshly constructed charge point in an open-socket browser session with
all three callbacks registered: empty storages, no heartbeat, fixed clock. -/
def initState : CPState :=
  { session := [], localStore := [], websocketOpen := true, heartbeat := none,
    timers := [], nextTimerId := 1, statusCb := true, availCb := true,
    logCb := true, now := "2023-10-17T08:45:43.774Z", nextMsgId := 0 }

/-- The invariant tying the `_heartbeat` slot to the live intervals: the live
intervals are exactly the one the slot references (the source creates
intervals only in `setHeartbeat` and always stores the fresh id in the
slot). -/
def hbInv (s : CPState) : Prop :=
  s.timers.map Prod.fst = s.heartbeat.toList

/-- The frame decoder of the `onmessage` handler: dispatch on the first
element of the parsed JSON array; for a CALL (2) take id and action and a
payload that is `null` unless the array has a fourth element; for a CALLRESULT
(3) take the payload at index 2; for a CALLERROR (4) take code and
description at indices 2 and 3; any other head falls out of the `switch`. -/
inductive DecodedMsg where
  | callReq (id request payload : JValue) : DecodedMsg
  | callResult (payload : JValue) : DecodedMsg
  | callError (errCode errMsg : JValue) : DecodedMsg
  | ignored : DecodedMsg

/-- `onmessage` destructuring of the parsed frame `ddata` (a JSON array). -/
def decodeFrame (ddata : List JValue) : DecodedMsg :=
  match ddata.getD 0 JValue.null with
  | JValue.num 2 =>
      let id := ddata.getD 1 JValue.null
      let request := ddata.getD 2 JValue.null
      let payload := if ddata.length > 3 then ddata.getD 3 JValue.null else JValue.null
      DecodedMsg.callReq id request payload
  | JValue.num 3 => DecodedMsg.callResult (ddata.getD 2 JValue.null)
  | JValue.num 4 => DecodedMsg.callError (ddata.getD 2 JValue.null) (ddata.getD 3 JValue.null)
  | _ => DecodedMsg.ignored

/-- The CALL encoding shared by every outbound request of the class
(`authorize`, `sendBootNotification`, `sendHeartbeat`, `sendMeterValue`,
`sendStatusNotification`, `startTransaction`, `stopTransactionWithId`): the
4-element array `[2, id, action, payload]`. -/
def encodeCall (id action : String) (payload : JValue) : List JValue :=
  [JValue.num 2, JValue.str id, JValue.str action, payload]

/-- A session that has just sent a StartTransaction CALL while Authorized:
the correlator slot holds `StartTransaction`. -/
def c3State : CPState :=
  { initState with session := [("LastAction", START_TRANSACTION), (KEY_CP_STATUS, CP_AUTHORIZED)] }

/-- A session that has just sent an Authorize CALL while Connected: the
correlator slot holds `Authorize`. -/
def c4State : CPState :=
  { initState with session := [("LastAction", AUTHORIZE), (KEY_CP_STATUS, CP_CONNECTED)] }

/-- C1 counterexample: the 3-element CALL frame `[2, "id1", "Heartbeat"]`
decodes to a request whose payload is `null`, and `null` is not the empty
object — so the handler does not receive an empty-object payload. -/
theorem decode_three_element_call_payload_is_null :
    decodeFrame [JValue.num 2, JValue.str "id1", JValue.str "Heartbeat"] =
      DecodedMsg.callReq (JValue.str "id1") (JValue.str "Heartbeat") JValue.null
    ∧ JValue.null ≠ JValue.obj [] :=
  ⟨rfl, fun h => JValue.noConfusion h⟩

/-- C1 amended: for every type-2 frame with exactly three elements, the
payload handed to `handleCallRequest` is JavaScript `null` (the decoder's
initial value), not the empty object. -/
theorem decode_three_element_call_payload_null (id action : JValue) :
    decodeFrame [JValue.num 2, id, action] = DecodedMsg.callReq id action JValue.null :=
  rfl

/-- C8: encoding a CALL as the 4-element array `[2, id, action, payload]` and
decoding it with the `onmessage` frame decoder yields message type 2 (a
`callReq`), the same id, the same action, and the same payload. -/
theorem decode_encodeCall (id action : String) (payload : JValue) :
    decodeFrame (encodeCall id action payload) =
      DecodedMsg.callReq (JValue.str id) (JValue.str action) payload :=
  rfl

/-- C2: restoring availability `Operative` on any connector leaves the whole
session store (hence every connector status) unchanged, performs no connector
status write, and sends nothing: both branches of `setConnectorAvailability`
test for `Inoperative`, so the operative-restoration branch never fires. -/
theorem setConnectorAvailability_operative_no_status_effect (c : Nat) (s : CPState) :
    (ChargePoint.setConnectorAvailability c AVAILABITY_OPERATIVE s).1.session = s.session
    ∧ connWrites (ChargePoint.setConnectorAvailability c AVAILABITY_OPERATIVE s).2 = []
    ∧ sentFrames (ChargePoint.setConnectorAvailability c AVAILABITY_OPERATIVE s).2 = []
    ∧ ChargePoint.connectorStatus c
        (ChargePoint.setConnectorAvailability c AVAILABITY_OPERATIVE s).1
      = ChargePoint.connectorStatus c s := by
  have hop : (AVAILABITY_OPERATIVE == AVAILABITY_INOPERATIVE) = false := rfl
  by_cases hcb : s.availCb = true
  all_goals by_cases hc : c = 0
  all_goals first
    | (subst hc
       simp [ChargePoint.setConnectorAvailability, hop, ChargePoint.connectorStatus,
         connWrites, sentFrames, hcb])
    | simp [ChargePoint.setConnectorAvailability, hop, ChargePoint.connectorStatus,
        connWrites, sentFrames, hcb, hc]


/-- C10: with an availability-change observer registered, changing the
availability of connector 0 invokes the observer exactly three times, with
`(0, X)`, `(1, X)`, `(2, X)` in that order: the recursion reaches connectors 1
and 2 and stops there. -/
theorem setConnectorAvailability_zero_observer_calls (X : String) (s : CPState)
    (hcb : s.availCb = true) :
    availCbCalls (ChargePoint.setConnectorAvailability 0 X s).2 = [(0, X), (1, X), (2, X)] := by
  by_cases hX : (X == AVAILABITY_INOPERATIVE) = true
  all_goals by_cases hws : s.websocketOpen = true
  all_goals by_cases hst : s.statusCb = true
  all_goals by_cases hlg : s.logCb = true
  all_goals
    simp [ChargePoint.setConnectorAvailability, ChargePoint.setConnectorStatus,
      ChargePoint.sendStatusNotification, ChargePoint.wsSendData, ChargePoint.setStatus,
      ChargePoint.logMsg, ChargePoint.setLastAction, ChargePoint.generateId,
      ChargePoint.connectorStatus, availCbCalls, hcb, hX, hws, hst, hlg]

/-- C6: setting availability `X` (an availability enum value) on connector 0
cascades: afterwards the persisted availabilities of connectors 1 and 2 both
read back as `X`. -/
theorem setConnectorAvailability_zero_cascades (X : String) (s : CPState)
    (hX : X = AVAILABITY_OPERATIVE ∨ X = AVAILABITY_INOPERATIVE) :
    ChargePoint.availability 1 (ChargePoint.setConnectorAvailability 0 X s).1 = X ∧
    ChargePoint.availability 2 (ChargePoint.setConnectorAvailability 0 X s).1 = X := by
  have k21 : ((KEY_CONN_AVAILABILITY ++ toString (2 : Nat))
      == KEY_CONN_AVAILABILITY ++ toString (1 : Nat)) = false := by decide
  have hN1 : ¬ (AVAILABITY_OPERATIVE = "") := by decide
  have hN2 : ¬ (AVAILABITY_INOPERATIVE = "") := by decide
  rcases hX with h | h
  all_goals subst h
  all_goals by_cases hws : s.websocketOpen = true
  all_goals by_cases hst : s.statusCb = true
  all_goals by_cases hlg : s.logCb = true
  all_goals by_cases hcb : s.availCb = true
  all_goals
    simp [ChargePoint.setConnectorAvailability, ChargePoint.setConnectorStatus,
      ChargePoint.sendStatusNotification, ChargePoint.wsSendData, ChargePoint.setStatus,
      ChargePoint.logMsg, ChargePoint.setLastAction, ChargePoint.generateId,
      ChargePoint.connectorStatus, ChargePoint.availability, storeGet, storeSet,
      List.find?, k21, hN1, hN2, hws, hst, hlg, hcb]

/-- Witness for C10 at connector-0 availability change `Operative` on the
fresh state with its observer registered. -/
theorem setConnectorAvailability_zero_observer_calls_witness :
    availCbCalls (ChargePoint.setConnectorAvailability 0 "Operative" initState).2 =
      [(0, "Operative"), (1, "Operative"), (2, "Operative")] :=
  setConnectorAvailability_zero_observer_calls "Operative" initState rfl

/-- Witness for C6 at `X = Operative` on the fresh state. -/
theorem setConnectorAvailability_zero_cascades_witness :
    ChargePoint.availability 1 (ChargePoint.setConnectorAvailability 0 AVAILABITY_OPERATIVE initState).1 = AVAILABITY_OPERATIVE ∧
    ChargePoint.availability 2 (ChargePoint.setConnectorAvailability 0 AVAILABITY_OPERATIVE initState).1 = AVAILABITY_OPERATIVE :=
  setConnectorAvailability_zero_cascades AVAILABITY_OPERATIVE initState (Or.inl rfl)

/-- Reading a key immediately after writing it yields the written value,
provided that value is not the empty string (which the getters coarsen to the
default). -/
theorem storeGet_storeSet_same (st : List (String × String)) (k v d : String)
    (h : (v == "") = false) : storeGet (storeSet st k v) k d = v := by
  simp [storeGet, storeSet, List.find?, h]

/-- Reading a different key than the one just written is unaffected by the
write. -/
theorem storeGet_storeSet_ne (st : List (String × String)) (k k1 v d : String)
    (h : (k == k1) = false) : storeGet (storeSet st k v) k1 d = storeGet st k1 d := by
  simp [storeGet, storeSet, List.find?, h]

/-- The fixed `"LastAction"` session key differs from every per-connector
status key (the latter extend a 15-character prefix). -/
theorem lastAction_beq_connKey (c : Nat) :
    ("LastAction" == KEY_CONN_STATUS ++ toString c) = false := by
  rw [beq_eq_false_iff_ne]
  intro h
  have hlen := congrArg String.length h
  have h10 : ("LastAction").length = 10 := rfl
  have h15 : (KEY_CONN_STATUS).length = 15 := rfl
  rw [String.length_append, h10, h15] at hlen
  omega

set_option maxHeartbeats 1600000 in
/-- C5: making any connector `Inoperative` stores connector status
`Unavailable` for it and emits a StatusNotification CALL whose payload names
that connector, errorCode `NoError`, and the newly stored `Unavailable`
status. -/
theorem setConnectorAvailability_inoperative_unavailable (c : Nat) (s : CPState)
    (hws : s.websocketOpen = true) :
    ChargePoint.connectorStatus c
        (ChargePoint.setConnectorAvailability c AVAILABITY_INOPERATIVE s).1
      = CONN_UNAVAILABLE
    ∧ ∃ f ∈ sentFrames (ChargePoint.setConnectorAvailability c AVAILABITY_INOPERATIVE s).2,
        frameAction f = some STATUSNOTIFICATION
        ∧ (framePayload f).getField "connectorId" = JValue.num c
        ∧ (framePayload f).getField "errorCode" = JValue.str "NoError"
        ∧ (framePayload f).getField "status" = JValue.str CONN_UNAVAILABLE := by
  have hU : ((CONN_UNAVAILABLE : String) == "") = false := by decide
  have hLA := lastAction_beq_connKey
  have k10 : ((KEY_CONN_STATUS ++ toString (1 : Nat))
      == KEY_CONN_STATUS ++ toString (0 : Nat)) = false := by decide
  have k20 : ((KEY_CONN_STATUS ++ toString (2 : Nat))
      == KEY_CONN_STATUS ++ toString (0 : Nat)) = false := by decide
  have fce : (("connectorId" : String) == "errorCode") = false := by decide
  have fcs : (("connectorId" : String) == "status") = false := by decide
  have fes : (("errorCode" : String) == "status") = false := by decide
  by_cases hc : c = 0
  all_goals by_cases hst : s.statusCb = true
  all_goals by_cases hlg : s.logCb = true
  all_goals by_cases hcb : s.availCb = true
  all_goals first
    | (subst hc
       simp [ChargePoint.setConnectorAvailability, ChargePoint.setConnectorStatus,
         ChargePoint.sendStatusNotification, ChargePoint.wsSendData, ChargePoint.setStatus,
         ChargePoint.logMsg, ChargePoint.setLastAction, ChargePoint.generateId,
         ChargePoint.connectorStatus, sentFrames, frameAction, framePayload,
         JValue.getField, List.find?, storeGet_storeSet_same, storeGet_storeSet_ne,
         hU, hLA, k10, k20, fce, fcs, fes, hws, hst, hlg, hcb])
    | simp [ChargePoint.setConnectorAvailability, ChargePoint.setConnectorStatus,
        ChargePoint.sendStatusNotification, ChargePoint.wsSendData, ChargePoint.setStatus,
        ChargePoint.logMsg, ChargePoint.setLastAction, ChargePoint.generateId,
        ChargePoint.connectorStatus, sentFrames, frameAction, framePayload,
        JValue.getField, List.find?, storeGet_storeSet_same, storeGet_storeSet_ne,
        hU, hLA, fce, fcs, fes, hws, hst, hlg, hcb, hc]

/-- Witness for C5 at connector 1 on the fresh connected state. -/
theorem setConnectorAvailability_inoperative_unavailable_witness :
    ChargePoint.connectorStatus 1
        (ChargePoint.setConnectorAvailability 1 AVAILABITY_INOPERATIVE initState).1
      = CONN_UNAVAILABLE
    ∧ ∃ f ∈ sentFrames (ChargePoint.setConnectorAvailability 1 AVAILABITY_INOPERATIVE initState).2,
        frameAction f = some STATUSNOTIFICATION
        ∧ (framePayload f).getField "connectorId" = JValue.num 1
        ∧ (framePayload f).getField "errorCode" = JValue.str "NoError"
        ∧ (framePayload f).getField "status" = JValue.str CONN_UNAVAILABLE :=
  setConnectorAvailability_inoperative_unavailable 1 initState rfl

/-- C9: starting from a state whose live intervals are exactly the one the
`_heartbeat` slot references (the invariant the source maintains, since
`setInterval` is called only here), two successive `setHeartbeat(n)` calls
leave exactly one live interval, firing every `n` seconds (period `n * 1000`
milliseconds) — the second call cancels the first call's timer before
installing its own.  Both after the first call and after the second there is
exactly one live interval. -/
theorem setHeartbeat_twice_single_timer (n : Nat) (s : CPState) (hinv : hbInv s) :
    ((ChargePoint.setHeartbeat n s).1).timers.map Prod.snd = [n * 1000]
    ∧ ((ChargePoint.setHeartbeat n (ChargePoint.setHeartbeat n s).1).1).timers.map Prod.snd
        = [n * 1000] := by
  unfold hbInv at hinv
  rcases hhb : s.heartbeat with _ | h0
  · rw [hhb] at hinv
    have ht : s.timers = [] := by
      cases htm : s.timers with
      | nil => rfl
      | cons x t => rw [htm] at hinv; simp [Option.toList] at hinv
    simp [ChargePoint.setHeartbeat, ChargePoint.logMsg, hhb, ht, apply_ite]
  · rw [hhb] at hinv
    obtain ⟨x, t, htm⟩ : ∃ x t, s.timers = x :: t := by
      cases htm : s.timers with
      | nil => rw [htm] at hinv; simp [Option.toList] at hinv
      | cons x t => exact ⟨_, _, rfl⟩
    rw [htm] at hinv
    simp [Option.toList, List.map_eq_nil_iff] at hinv
    obtain ⟨hx1, ht⟩ := hinv
    simp [ChargePoint.setHeartbeat, ChargePoint.logMsg, hhb, htm, hx1, ht, apply_ite]

/-- Witness for C9: a 30-second heartbeat installed twice on the fresh state
(no prior interval) leaves one interval of 30000 ms after each call. -/
theorem setHeartbeat_twice_single_timer_witness :
    ((ChargePoint.setHeartbeat 30 initState).1).timers.map Prod.snd = [30 * 1000]
    ∧ ((ChargePoint.setHeartbeat 30 (ChargePoint.setHeartbeat 30 initState).1).1).timers.map
        Prod.snd = [30 * 1000] :=
  setHeartbeat_twice_single_timer 30 initState rfl

/-- Decimal digit accumulation never shrinks its accumulator. -/
theorem toDigitsCore_length_le (b : Nat) (fuel n : Nat) (ds : List Char) :
    ds.length ≤ (Nat.toDigitsCore b fuel n ds).length := by
  induction fuel generalizing n ds with
  | zero => simp [Nat.toDigitsCore]
  | succ f ih =>
    simp only [Nat.toDigitsCore]
    split
    · simp
    · exact le_trans (by simp) (ih _ _)

/-- The decimal digits of a natural number form a non-empty list. -/
theorem toDigits_ne_nil (b n : Nat) : Nat.toDigits b n ≠ [] := by
  unfold Nat.toDigits
  simp only [Nat.toDigitsCore]
  split
  · simp
  · intro h
    have := toDigitsCore_length_le b n (n / b) [Nat.digitChar (n % b)]
    rw [h] at this
    simp at this

/-- The decimal rendering of a natural number is never the empty string. -/
theorem natRepr_ne_empty (n : Nat) : Nat.repr n ≠ "" := by
  intro h
  exact toDigits_ne_nil 10 n (congrArg String.data h)

/-- The decimal rendering of an integer is never the empty string (so the
storage getters' empty-string defaulting never masks a stored transaction
id). -/
theorem toStringInt_ne_empty (k : Int) : toString k ≠ "" := by
  cases k with
  | ofNat m => exact natRepr_ne_empty m
  | negSucc m =>
      intro h
      have h2 : toString (Int.negSucc m) = "-" ++ Nat.repr (m + 1) := rfl
      rw [h2] at h
      have hl := congrArg String.length h
      rw [String.length_append] at hl
      have h1 : ("-").length = 1 := rfl
      have h0 : ("").length = 0 := rfl
      rw [h1, h0] at hl
      omega

/-- C3 counterexample: a StartTransaction CALLRESULT whose payload does carry
a `transactionId` — the integer 0 — is nevertheless dropped by the handler
(JavaScript `!transactionId` is true for 0): the state and trace are
unchanged, so no id is written and the status does not become InTransaction
(it stays Authorized). -/
theorem startTransaction_result_zero_id_dropped :
    (JValue.obj [("transactionId", JValue.num 0)]).getField "transactionId" = JValue.num 0
    ∧ ChargePoint.handleCallResult (JValue.obj [("transactionId", JValue.num 0)]) c3State
        = (c3State, [])
    ∧ ChargePoint.status c3State = CP_AUTHORIZED
    ∧ CP_AUTHORIZED ≠ CP_INTRANSACTION :=
  ⟨rfl, rfl, rfl, by decide⟩

/-- C3 amended: while the pending action is StartTransaction, a CALLRESULT
carrying a truthy (non-zero) integer `transactionId` records that id in
persisted state and moves the charge-point status to InTransaction, and a
CALLRESULT with a falsy `transactionId` (absent, null, or zero) leaves state
and trace untouched. -/
theorem handleCallResult_startTransaction (payload : JValue) (s : CPState) (k : Int)
    (hla : ChargePoint.getLastAction s = START_TRANSACTION) :
    (payload.getField "transactionId" = JValue.num k → k ≠ 0 →
        ChargePoint.status (ChargePoint.handleCallResult payload s).1 = CP_INTRANSACTION
        ∧ storeGet (ChargePoint.handleCallResult payload s).1.session "TransactionId" ""
            = toString k)
    ∧ ((payload.getField "transactionId").falsy = true →
        ChargePoint.handleCallResult payload s = (s, [])) := by
  have hb : ¬ (START_TRANSACTION = BOOT_NOTIFICATION) := by decide
  have ha : ¬ (START_TRANSACTION = AUTHORIZE) := by decide
  have hI : ((CP_INTRANSACTION : String) == "") = false := by decide
  have hkey : (KEY_CP_STATUS == "TransactionId") = false := by decide
  constructor
  · intro ht hk
    have hf : (JValue.num k).falsy = false := by simp [JValue.falsy, hk]
    have hkne : ((toString k : String) == "") = false :=
      beq_eq_false_iff_ne.mpr (toStringInt_ne_empty k)
    simp only [ChargePoint.handleCallResult, hla]
    simp only [beq_iff_eq, if_neg hb, if_neg ha, if_pos rfl]
    rw [ht]
    simp only [hf]
    by_cases hst : s.statusCb = true
    all_goals by_cases hlg : s.logCb = true
    all_goals
      simp [ChargePoint.status, ChargePoint.setStatus, ChargePoint.logMsg,
        storeGet_storeSet_same, storeGet_storeSet_ne, hI, hkey, hkne, JValue.toJSString,
        hst, hlg]
  · intro hf
    simp only [ChargePoint.handleCallResult, hla]
    simp only [beq_iff_eq, if_neg hb, if_neg ha, if_pos rfl]
    simp [hf]

/-- Witness for C3 (amended) at the server result `{transactionId: 42}` on a
state whose pending action is StartTransaction. -/
theorem handleCallResult_startTransaction_witness :
    ChargePoint.status (ChargePoint.handleCallResult
        (JValue.obj [("transactionId", JValue.num 42)]) c3State).1 = CP_INTRANSACTION
    ∧ storeGet (ChargePoint.handleCallResult
        (JValue.obj [("transactionId", JValue.num 42)]) c3State).1.session "TransactionId" ""
        = toString (42 : Int) :=
  (handleCallResult_startTransaction (JValue.obj [("transactionId", JValue.num 42)])
    c3State 42 rfl).1 rfl (by decide)

/-- C4 counterexample: an Authorize CALLRESULT whose `idTagInfo.status` is
`Blocked` — not an accepted result — still moves the charge-point status to
Authorized, because the source only tests for `Invalid`. -/
theorem authorize_result_blocked_still_authorized :
    ChargePoint.status (ChargePoint.handleCallResult
        (JValue.obj [("idTagInfo", JValue.obj [("status", JValue.str "Blocked")])]) c4State).1
      = CP_AUTHORIZED
    ∧ ("Blocked" : String) ≠ "Accepted" :=
  ⟨rfl, by decide⟩

/-- C4 amended: while the pending action is Authorize (and the result payload
has an `idTagInfo` object, as the source dereferences it unguardedly), the
charge-point status becomes Authorized exactly when `idTagInfo.status` is not
the string `Invalid`; on an `Invalid` result the session (hence the status)
is untouched. -/
theorem handleCallResult_authorize (payload : JValue) (s : CPState)
    (hla : ChargePoint.getLastAction s = AUTHORIZE)
    (hObj : ∃ fs, payload.getField "idTagInfo" = JValue.obj fs) :
    (((payload.getField "idTagInfo").getField "status").eqStr "Invalid" = false →
        ChargePoint.status (ChargePoint.handleCallResult payload s).1 = CP_AUTHORIZED)
    ∧ (((payload.getField "idTagInfo").getField "status").eqStr "Invalid" = true →
        (ChargePoint.handleCallResult payload s).1.session = s.session) := by
  have hb : ¬ (AUTHORIZE = BOOT_NOTIFICATION) := by decide
  have hA : ((CP_AUTHORIZED : String) == "") = false := by decide
  constructor
  · intro hinv
    simp only [ChargePoint.handleCallResult, hla]
    simp only [beq_iff_eq, if_neg hb, if_pos rfl]
    simp only [hinv]
    by_cases hst : s.statusCb = true
    all_goals by_cases hlg : s.logCb = true
    all_goals
      simp [ChargePoint.status, ChargePoint.setStatus, ChargePoint.logMsg,
        storeGet_storeSet_same, hA, hst, hlg]
  · intro hinv
    simp only [ChargePoint.handleCallResult, hla]
    simp only [beq_iff_eq, if_neg hb, if_pos rfl]
    simp only [hinv]
    by_cases hlg : s.logCb = true
    all_goals simp [ChargePoint.logMsg, hlg]

/-- Witness for C4 (amended) at an `Accepted` authorization result on a state
whose pending action is Authorize. -/
theorem handleCallResult_authorize_witness :
    ChargePoint.status (ChargePoint.handleCallResult
        (JValue.obj [("idTagInfo", JValue.obj [("status", JValue.str "Accepted")])]) c4State).1
      = CP_AUTHORIZED :=
  (handleCallResult_authorize
    (JValue.obj [("idTagInfo", JValue.obj [("status", JValue.str "Accepted")])])
    c4State rfl ⟨_, rfl⟩).1 rfl

set_option maxHeartbeats 1600000 in
/-- C7: over the trace of `stopTransactionWithId`, the only charge-point
status write is `Authorized` and it happens — together with the emission of
the StopTransaction CALL — strictly before the first awaited delay, hence
before any connector-status write; the connector writes over the whole trace
are exactly `(1, Finishing)` then `(1, Available)` in that order (never
Available before Finishing), each accompanied by a StatusNotification
reporting that status, in the same order. -/
theorem stopTransactionWithId_order (tid : Int) (tag : String) (s : CPState)
    (hws : s.websocketOpen = true) :
    cpWrites (ChargePoint.stopTransactionWithId tid tag s).2 = [CP_AUTHORIZED]
    ∧ cpWrites ((ChargePoint.stopTransactionWithId tid tag s).2.takeWhile
        (fun e => !e.isWait)) = [CP_AUTHORIZED]
    ∧ connWrites ((ChargePoint.stopTransactionWithId tid tag s).2.takeWhile
        (fun e => !e.isWait)) = []
    ∧ (∃ f ∈ sentFrames ((ChargePoint.stopTransactionWithId tid tag s).2.takeWhile
        (fun e => !e.isWait)), frameAction f = some STOP_TRANSACTION)
    ∧ connWrites (ChargePoint.stopTransactionWithId tid tag s).2
        = [(1, CONN_FINISHING), (1, CONN_AVAILABLE)]
    ∧ statusNotifStatuses (ChargePoint.stopTransactionWithId tid tag s).2
        = [JValue.str CONN_FINISHING, JValue.str CONN_AVAILABLE] := by
  have hF : ((CONN_FINISHING : String) == "") = false := by decide
  have hAv : ((CONN_AVAILABLE : String) == "") = false := by decide
  have hSS : (STOP_TRANSACTION == STATUSNOTIFICATION) = false := by decide
  have hSSP : ¬ (STOP_TRANSACTION = STATUSNOTIFICATION) := by decide
  have fce : (("connectorId" : String) == "errorCode") = false := by decide
  have fcs : (("connectorId" : String) == "status") = false := by decide
  have fes : (("errorCode" : String) == "status") = false := by decide
  by_cases hst : s.statusCb = true
  all_goals by_cases hlg : s.logCb = true
  all_goals
    simp [ChargePoint.stopTransactionWithId, ChargePoint.setConnectorStatus,
      ChargePoint.sendStatusNotification, ChargePoint.wsSendData, ChargePoint.setStatus,
      ChargePoint.logMsg, ChargePoint.setLastAction, ChargePoint.generateId,
      ChargePoint.connectorStatus, ChargePoint.meterValue,
      cpWrites, connWrites, sentFrames, statusNotifStatuses, frameAction, framePayload,
      JValue.getField, List.find?, List.takeWhile, Event.isWait,
      storeGet_storeSet_same, storeGet_storeSet_ne,
      hF, hAv, hSS, hSSP, fce, fcs, fes, hws, hst, hlg]

/-- Witness for C7 at transaction id 42, the default tag, on the fresh
connected state. -/
theorem stopTransactionWithId_order_witness :
    cpWrites (ChargePoint.stopTransactionWithId 42 "DEADBEEF" initState).2 = [CP_AUTHORIZED]
    ∧ cpWrites ((ChargePoint.stopTransactionWithId 42 "DEADBEEF" initState).2.takeWhile
        (fun e => !e.isWait)) = [CP_AUTHORIZED]
    ∧ connWrites ((ChargePoint.stopTransactionWithId 42 "DEADBEEF" initState).2.takeWhile
        (fun e => !e.isWait)) = []
    ∧ (∃ f ∈ sentFrames ((ChargePoint.stopTransactionWithId 42 "DEADBEEF" initState).2.takeWhile
        (fun e => !e.isWait)), frameAction f = some STOP_TRANSACTION)
    ∧ connWrites (ChargePoint.stopTransactionWithId 42 "DEADBEEF" initState).2
        = [(1, CONN_FINISHING), (1, CONN_AVAILABLE)]
    ∧ statusNotifStatuses (ChargePoint.stopTransactionWithId 42 "DEADBEEF" initState).2
        = [JValue.str CONN_FINISHING, JValue.str CONN_AVAILABLE] :=
  stopTransactionWithId_order 42 "DEADBEEF" initState rfl
